import Mathlib

/-!
Shallow embedding of the Hydroleaf on-device agent runtime (ESP32/ESP8266
firmware variants: smart dosing unit, smart switch, valve controller,
smart camera).  Machine `uint32_t` arithmetic is modelled on `Nat` with an
explicit modulus `U32 = 2^32`; the event-driven network code is modelled by
explicit environments (HTTP response codes, parsed JSON fields) and traces
of the network calls the firmware issues.
-/

namespace Hydroleaf

/-- Modulus of `uint32_t` arithmetic (`millis()` timestamps, durations). -/
def U32 : Nat := 4294967296

/-- Unsigned 32-bit subtraction `a - b`, as computed by the C expressions
`now - startMs`, `now - wifiLostSince`, `millis() - lastUpdateCheck`. -/
def sub32 (a b : Nat) : Nat := (a % U32 + (U32 - b % U32)) % U32

/-- Conversion of a C `int` to `uint32_t`, as happens implicitly when
`handlePumpPOST` passes the parsed JSON `amount` to
`schedulePump(int pump, uint32_t ms)`. -/
def toU32 (i : Int) : Nat := (i % (4294967296 : Int)).toNat

/-! ## Actuation scheduler (smart dosing unit)

From `src/device code/Smart Dosing Unit/code.ino`:
`struct PumpState { bool active; uint32_t startMs, durMs; } pumps[4];`,
`schedulePump`, `updatePumps`, `setRelay`.  The fixed C array `pumps[4]`
is modelled as a total map `Fin 4 → PumpState`; the relay output of each
channel (`true` = energized, i.e. pin driven LOW by `setRelay(idx, true)`)
as a map `Fin 4 → Bool`. -/

/-- One channel's task: `struct PumpState { bool active; uint32_t startMs, durMs; }`. -/
structure PumpState where
  active : Bool
  startMs : Nat
  durMs : Nat
deriving Repr, DecidableEq

/-- Actuation state of the dosing unit: the task array `pumps[4]` plus the
relay output of each of the four channels. -/
structure DoserState where
  pumps : Fin 4 → PumpState
  relays : Fin 4 → Bool

/-- Boot state: all tasks inactive, all relays deasserted (`setup()` writes
every relay pin HIGH, i.e. de-energized, and `pumps[i]` default-initializes
to `{ false, 0, 0 }`). -/
def initDoser : DoserState :=
  { pumps := fun _ => ⟨false, 0, 0⟩, relays := fun _ => false }

/-- Model of `schedulePump(int pump, uint32_t ms)`: rejects `pump < 1 || pump > 4
|| ms == 0` by returning with no effect; otherwise stores
`pumps[pump-1] = { true, millis(), ms }` and asserts the relay
(`setRelay(pump, true)`). -/
def schedulePump (s : DoserState) (pump : Int) (ms now : Nat) : DoserState :=
  if h : pump < 1 ∨ 4 < pump ∨ ms = 0 then s
  else
    let idx : Fin 4 := ⟨(pump - 1).toNat, by omega⟩
    { pumps := Function.update s.pumps idx ⟨true, now, ms⟩
      relays := Function.update s.relays idx true }

/-- Expiry test from `updatePumps()`:
`pumps[i].active && now - pumps[i].startMs >= pumps[i].durMs`
(with `uint32_t` subtraction). -/
def pumpExpired (now : Nat) (p : PumpState) : Bool :=
  p.active && decide (p.durMs ≤ sub32 now p.startMs)

/-- Model of `updatePumps()`: for every channel whose task has expired, deassert the
relay (`setRelay(i+1, false)`) and clear the active flag. -/
def updatePumps (s : DoserState) (now : Nat) : DoserState :=
  { pumps := fun i =>
      if pumpExpired now (s.pumps i) then { s.pumps i with active := false } else s.pumps i
    relays := fun i =>
      if pumpExpired now (s.pumps i) then false else s.relays i }

/-- Body of a `POST /pump` request after the web server has read it:
either the `plain` argument is missing, or its JSON fails to parse, or it
parsed and yielded the `int` fields `pump` and `amount` (ArduinoJson's
`j["pump"] | 0` defaulting is part of the parse). -/
inductive PumpReq
  | missingBody
  | badJson
  | body (pump amount : Int)
deriving Repr, DecidableEq

/-- Model of `handlePumpPOST()`: missing body → HTTP 400, unparsable JSON → HTTP 400;
otherwise it calls `schedulePump(pump, amount)` (the `int` amount converted
to `uint32_t`) and unconditionally replies HTTP 200 echoing the request. -/
def handlePumpPOST (s : DoserState) (r : PumpReq) (now : Nat) : DoserState × Nat :=
  match r with
  | .missingBody => (s, 400)
  | .badJson => (s, 400)
  | .body pump amount => (schedulePump s pump (toU32 amount) now, 200)

/-! ## Connectivity watchdog (smart dosing unit `loop()`) -/

/-- Constant `WIFI_WATCHDOG_MS = 120UL * 1000` (two minutes). -/
def WIFI_WATCHDOG_MS : Nat := 120000

/-- State the watchdog section of `loop()` works on: the `wifiLostSince`
timestamp (0 = link not currently lost) and the actuation state. -/
structure WdState where
  wifiLostSince : Nat
  doser : DoserState

/-- One pass of the watchdog block at the end of `loop()`:
if Wi-Fi is connected, `wifiLostSince = 0`; otherwise record the first
loss time, and once `now - wifiLostSince > WIFI_WATCHDOG_MS` clear every
pump task, deassert every relay and call `ESP.restart()` (the returned
Bool reports whether the restart fired). -/
def watchdogStep (s : WdState) (wifiUp : Bool) (now : Nat) : WdState × Bool :=
  if wifiUp then ({ s with wifiLostSince := 0 }, false)
  else
    let since := if s.wifiLostSince = 0 then now else s.wifiLostSince
    if WIFI_WATCHDOG_MS < sub32 now since then
      ({ wifiLostSince := since
         doser := { pumps := fun i => { s.doser.pumps i with active := false }
                    relays := fun _ => false } }, true)
    else ({ s with wifiLostSince := since }, false)

/-- Iterated loop passes while the upstream link stays down; the Bool
reports whether the watchdog fired at any of the passes. -/
def runWatchdogDown (s : WdState) : List Nat → WdState × Bool
  | [] => (s, false)
  | t :: ts =>
    let r := watchdogStep s false t
    let rest := runWatchdogDown r.1 ts
    (rest.1, r.2 || rest.2)

/-! ## Mode classifier (camera `updateLDR()`)

From `src/unnamed/part_002` and `src/unnamed/part_004`:
`uint8_t ldrRing[5] = {1,1,1,1,1}, ldrIdx = 0;` and `updateLDR()`.
Ring entries are the raw `digitalRead(PIN_LDR)` values; `false` = LOW =
dark, `true` = HIGH = light. -/

/-- Number of dark samples in the ring (`if (v == LOW) ++dark`). -/
def countDark (ring : List Bool) : Nat := (ring.filter fun v => v == false).length

/-- Number of light samples in the ring. -/
def countLight (ring : List Bool) : Nat := (ring.filter fun v => v == true).length

/-- State of the LDR day/night classifier. -/
structure LdrState where
  ring : List Bool
  idx : Nat
  nightMode : Bool
deriving Repr, DecidableEq

/-- Model of `updateLDR()`: store the new sample at `ldrIdx` (advancing it modulo 5),
count the dark samples, then: `dark >= 4 && !nightMode` → switch to night,
`dark <= 1 && nightMode` → switch back to day, otherwise keep the mode. -/
def updateLDR (s : LdrState) (reading : Bool) : LdrState :=
  let ring := s.ring.set s.idx reading
  let idx := if 5 ≤ s.idx + 1 then 0 else s.idx + 1
  let dark := countDark ring
  if 4 ≤ dark ∧ s.nightMode = false then ⟨ring, idx, true⟩
  else if dark ≤ 1 ∧ s.nightMode = true then ⟨ring, idx, false⟩
  else ⟨ring, idx, s.nightMode⟩

/-! ## Cloud session: behaviour on HTTP 401

From `pollCommands()` (`src/device code/Smart Switch/code.ino`) and
`sendFrame()` (`src/unnamed/part_002`).  Both issue one request; when the
response code is 401 they call `cloudAuthenticate()` (one POST to the
authenticate endpoint) and return without re-issuing the original request. -/

/-- Control-plane network calls a firmware routine can issue. -/
inductive NetOp
  | postFrame
  | getCommands
  | postAuth
deriving Repr, DecidableEq

/-- Model of `sendFrame()` (camera, `src/unnamed/part_002`), as a function of the
response code of its single `POST`: the trace of network calls it issues,
and its Bool result (`code >= 200 && code < 300`).  On 401 it calls
`cloudAuthenticate()` and falls through to the return. -/
def sendFrame (code : Nat) : List NetOp × Bool :=
  (NetOp.postFrame :: (if code = 401 then [NetOp.postAuth] else []),
   decide (200 ≤ code) && decide (code < 300))

/-- Model of `pollCommands()` (smart switch), as a function of the response code of
its single `GET`: the trace of control-plane calls it issues.  A 200
response has its commands executed locally; a 401 triggers exactly one
`cloudAuthenticate()` call; in every case the routine then returns. -/
def pollCommands (code : Nat) : List NetOp :=
  NetOp.getCommands :: (if code = 401 then [NetOp.postAuth] else [])

/-! ## OTA update check and fetch (smart switch)

From `checkForUpdate()` and `performUpdate()` in
`src/device code/Smart Switch/code.ino`, plus the dosing unit's
`checkForUpdate()` and the update-check timer in the smart switch `loop()`. -/

/-- Exit paths of one smart-switch OTA cycle.  Only `rebooted` installs a
new image (a successful `Update.end(true)` followed by `ESP.restart()`);
every other constructor returns with the running firmware untouched. -/
inductive OtaOutcome
  | checkHttpFail
  | parseFail
  | noUpdate
  | noUrl
  | dlHttpFail
  | lengthError
  | beginFail
  | shortWrite
  | finalizeFail
  | rebooted
deriving Repr, DecidableEq

/-- Environment of one `performUpdate(download_url)` run: result of the
`GET` on the download URL, `http.getSize()` (`-1` when the server sent no
`Content-Length`), and the results of `Update.begin`, `Update.writeStream`
and `Update.end(true)`. -/
structure DlEnv where
  httpCode : Int
  contentLength : Int
  beginOk : Bool
  written : Nat
  endOk : Bool
deriving Repr, DecidableEq

/-- Result of an OTA cycle: the exit path taken, and the size argument
passed to `Update.begin` if that call was reached (`none` = no flash-write
target was ever opened). -/
structure OtaResult where
  outcome : OtaOutcome
  beginSize : Option Int
deriving Repr, DecidableEq

/-- Model of `performUpdate()`: `GET download_url`; abort unless the code is 200;
abort (`"Content length error or zero."`) unless `contentLength > 0`;
`Update.begin(contentLength)`; require `written == contentLength`
(otherwise `Update.end(false)` and return, firmware untouched); then
`Update.end(true)`; on success reboot into the new image. -/
def performUpdate (e : DlEnv) : OtaResult :=
  if e.httpCode ≠ 200 then ⟨.dlHttpFail, none⟩
  else if e.contentLength ≤ 0 then ⟨.lengthError, none⟩
  else if e.beginOk = false then ⟨.beginFail, some e.contentLength⟩
  else if e.written ≠ e.contentLength.toNat then ⟨.shortWrite, some e.contentLength⟩
  else if e.endOk = false then ⟨.finalizeFail, some e.contentLength⟩
  else ⟨.rebooted, some e.contentLength⟩

/-- Environment of one `checkForUpdate()` run (smart switch): response code
of the update-check `GET`, whether its JSON parsed, the parsed
`update_available` flag, and whether a `download_url` string was present. -/
structure CheckEnv where
  httpCode : Int
  parseOk : Bool
  update_available : Bool
  hasUrl : Bool
deriving Repr, DecidableEq

/-- Model of `checkForUpdate()` (smart switch): non-200 check response, parse error,
`update_available == false`, or a missing `download_url` all return without
downloading; otherwise `performUpdate(download_url)` runs.  The Bool
reports whether a firmware download was initiated. -/
def checkForUpdate (c : CheckEnv) (d : DlEnv) : OtaResult × Bool :=
  if c.httpCode ≠ 200 then (⟨.checkHttpFail, none⟩, false)
  else if c.parseOk = false then (⟨.parseFail, none⟩, false)
  else if c.update_available = false then (⟨.noUpdate, none⟩, false)
  else if c.hasUrl = false then (⟨.noUrl, none⟩, false)
  else (performUpdate d, true)

/-- Model of `checkForUpdate()` of the dosing unit: a download (`httpUpdate.update`)
is started iff the update-check `GET` succeeded and its body contains
`"update_available":true` (`body.indexOf(...) >= 0`). -/
def doserCheckForUpdate (gotBody bodyHasUpdateTrue : Bool) : Bool :=
  gotBody && bodyHasUpdateTrue

/-- Paths of an OTA cycle on which the firmware logs the failure over
serial before returning. -/
def otaLogsFailure : OtaOutcome → Bool
  | .checkHttpFail => true
  | .parseFail => true
  | .dlHttpFail => true
  | .lengthError => true
  | .beginFail => true
  | .shortWrite => true
  | .finalizeFail => true
  | _ => false

/-- Paths of an OTA cycle that leave the running image (and hence the
compiled-in `FW_VERSION` reported on the next heartbeat) unchanged. -/
def otaPreservesFirmware : OtaOutcome → Bool
  | .rebooted => false
  | _ => true

/-- The update-check timer gate in the smart switch `loop()`:
`if (millis() - lastUpdateCheck > updateCheckInterval)` (one hour) then the
timer is re-armed at `now` and `checkForUpdate()` runs.  Returns (whether a
check runs this iteration, the new `lastUpdateCheck`). -/
def loopUpdateGate (lastUpdateCheck now : Nat) : Bool × Nat :=
  if 3600000 < sub32 now lastUpdateCheck then (true, now) else (false, lastUpdateCheck)

/-! ## Device identity initialization -/

/-- Model of `genDeviceId()` of the valve controller: load the persisted id; if it
is nonempty, return without writing; otherwise generate
`"valve-" + chipId` and persist it.  Returns the resulting persisted id
and whether a new id was generated and written. -/
def genDeviceId (stored chipIdHex : String) : String × Bool :=
  if stored = "" then ("valve-" ++ chipIdHex, true) else (stored, false)

/-- The identity step of the smart switch `setup()`:
`if (deviceId.isEmpty()) { deviceId = <efuse MAC hex>; prefs.putString... }`.
Returns the resulting persisted id and whether a write happened. -/
def switchSetupDeviceId (stored efuseMacHex : String) : String × Bool :=
  if stored = "" then (efuseMacHex, true) else (stored, false)

/-! ## Valve controller `/toggle`

From `handleToggle()` (`src/device code/Valve controller/code.ino`, first
variant) with `VALVE_COUNT = 4`; the `/toggle` lambda of the second variant
is identical on valve state (only the pin polarity differs). -/

/-- Valve controller state: `g_valveState[4]` plus the digital output level
of each valve pin (`true` = HIGH).  The first variant drives an active-LOW
relay: `digitalWrite(valvePins[idx], g_valveState[idx] ? LOW : HIGH)`. -/
structure ValveCtl where
  valveState : Fin 4 → Bool
  pins : Fin 4 → Bool

/-- Body of a `POST /toggle` request: either the JSON failed to parse or
had no `valve_id` key (→ 400), or it carried an integer `valve_id`. -/
inductive ToggleReq
  | badPayload
  | withId (valve_id : Int)
deriving Repr, DecidableEq

/-- Model of `handleToggle()`: bad payload → 400; `valve_id` outside 1..4 → 400 with
no state change; otherwise flip `g_valveState[idx]`, write the pin
(active-LOW) from the new state, persist it, and reply 200. -/
def handleToggle (s : ValveCtl) (r : ToggleReq) : ValveCtl × Nat :=
  match r with
  | .badPayload => (s, 400)
  | .withId v =>
    if h : v < 1 ∨ 4 < v then (s, 400)
    else
      let idx : Fin 4 := ⟨(v - 1).toNat, by omega⟩
      let ns := ! s.valveState idx
      ({ valveState := Function.update s.valveState idx ns
         pins := Function.update s.pins idx (if ns then false else true) }, 200)

/-! ## Arithmetic helpers -/

/-- Unsigned 32-bit subtraction of a value from itself is zero. -/
theorem sub32_self (a : Nat) : sub32 a a = 0 := by
  unfold sub32 U32
  omega

/-- When no wraparound is in play (`b ≤ a` and the distance fits in 32
bits), `uint32_t` subtraction agrees with natural subtraction. -/
theorem sub32_eq_sub {a b : Nat} (h1 : b ≤ a) (h2 : a - b < U32) : sub32 a b = a - b := by
  unfold sub32 U32 at *
  omega

/-- The dark and light counts of a ring partition its length. -/
theorem countDark_add_countLight (ring : List Bool) :
    countDark ring + countLight ring = ring.length := by
  induction ring with
  | nil => rfl
  | cons v r ih =>
    cases v <;> simp [countDark, countLight] at ih ⊢ <;> omega

/-! ## Actuation scheduler lemmas -/

/-- On a valid submission (channel 1..4, nonzero duration), `schedulePump`
stores the task with the submission time and duration and asserts the
channel's relay. -/
theorem schedulePump_valid_eq (s : DoserState) (c : Int) (d t0 : Nat) (idx : Fin 4)
    (hc1 : 1 ≤ c) (hc2 : c ≤ 4) (hd : d ≠ 0) (hidx : (idx : Nat) = (c - 1).toNat) :
    (schedulePump s c d t0).pumps idx = ⟨true, t0, d⟩ ∧
    (schedulePump s c d t0).relays idx = true := by
  have hcond : ¬(c < 1 ∨ 4 < c ∨ d = 0) := by omega
  constructor <;>
    simp [schedulePump, dif_neg hcond, Function.update_apply, Fin.ext_iff, hidx]

/-- While a channel's task has not yet reached its duration, ticking never
deasserts it: folding `updatePumps` over tick times that are all less than
`d` past the submission leaves the task and the relay untouched. -/
theorem foldl_updatePumps_keep (idx : Fin 4) (t0 d : Nat) (hdU : d < U32) :
    ∀ ts : List Nat, (∀ t ∈ ts, t0 ≤ t ∧ t - t0 < d) →
    ∀ s : DoserState, s.pumps idx = ⟨true, t0, d⟩ → s.relays idx = true →
    (ts.foldl updatePumps s).pumps idx = ⟨true, t0, d⟩ ∧
    (ts.foldl updatePumps s).relays idx = true := by
  intro ts
  induction ts with
  | nil => intro _ s h1 h2; exact ⟨h1, h2⟩
  | cons t r ih =>
    intro hts s h1 h2
    have ht := hts t (List.mem_cons_self t r)
    have hsub : sub32 t t0 = t - t0 := sub32_eq_sub ht.1 (by omega)
    have hexp : pumpExpired t ({ active := true, startMs := t0, durMs := d } : PumpState) = false := by
      simp [pumpExpired, hsub]
      omega
    have hp : (updatePumps s t).pumps idx = ⟨true, t0, d⟩ := by
      simp [updatePumps, h1, hexp]
    have hr : (updatePumps s t).relays idx = true := by
      simp [updatePumps, h1, hexp, h2]
    exact ih (fun t' ht' => hts t' (List.mem_cons_of_mem _ ht')) (updatePumps s t) hp hr

/-- C5: for every valid channel `c` (1..4) and duration `0 < d`,
`schedulePump` asserts the channel immediately and records the task; a
subsequent `updatePumps` whose elapsed time since submission is `≥ d`
deasserts the channel and clears its active flag; any sequence of
`updatePumps` calls spanning `< d` milliseconds never deasserts it; and
once the active flag is clear, further ticks change neither the task nor
the relay (so the deassert happens exactly once). -/
theorem spec_C5_submit_tick (s : DoserState) (c : Int) (d t0 : Nat) (idx : Fin 4)
    (hc1 : 1 ≤ c) (hc2 : c ≤ 4) (hidx : (idx : Nat) = (c - 1).toNat)
    (hd : 0 < d) (hdU : d < U32) :
    (schedulePump s c d t0).relays idx = true ∧
    (schedulePump s c d t0).pumps idx = ⟨true, t0, d⟩ ∧
    (∀ t1, t0 ≤ t1 → t1 - t0 < U32 → d ≤ t1 - t0 →
      (updatePumps (schedulePump s c d t0) t1).relays idx = false ∧
      ((updatePumps (schedulePump s c d t0) t1).pumps idx).active = false) ∧
    (∀ ts : List Nat, (∀ t ∈ ts, t0 ≤ t ∧ t - t0 < d) →
      (ts.foldl updatePumps (schedulePump s c d t0)).relays idx = true ∧
      (ts.foldl updatePumps (schedulePump s c d t0)).pumps idx = ⟨true, t0, d⟩) ∧
    (∀ (s2 : DoserState) (t2 : Nat), (s2.pumps idx).active = false →
      (updatePumps s2 t2).pumps idx = s2.pumps idx ∧
      (updatePumps s2 t2).relays idx = s2.relays idx) := by
  obtain ⟨hp, hr⟩ := schedulePump_valid_eq s c d t0 idx hc1 hc2 (by omega) hidx
  refine ⟨hr, hp, ?_, ?_, ?_⟩
  · intro t1 ht1 ht1U hd1
    have hsub : sub32 t1 t0 = t1 - t0 := sub32_eq_sub ht1 ht1U
    have hexp : pumpExpired t1 ((schedulePump s c d t0).pumps idx) = true := by
      rw [hp]
      simp [pumpExpired, hsub]
      exact hd1
    exact ⟨by simp [updatePumps, hexp], by simp [updatePumps, hexp]⟩
  · intro ts hts
    obtain ⟨h1, h2⟩ := foldl_updatePumps_keep idx t0 d hdU ts hts _ hp hr
    exact ⟨h2, h1⟩
  · intro s2 t2 h
    have hexp : pumpExpired t2 (s2.pumps idx) = false := by
      simp [pumpExpired, h]
    exact ⟨by simp [updatePumps, hexp], by simp [updatePumps, hexp]⟩

/-- Witness for C5 at channel 2, duration 1000 ms, submitted at t=5 and
ticked at t=1200. -/
theorem spec_C5_witness :
    (updatePumps (schedulePump initDoser 2 1000 5) 1200).relays 1 = false := by
  have h := spec_C5_submit_tick initDoser 2 1000 5 1 (by decide) (by decide) (by decide)
    (by decide) (by decide)
  exact (h.2.2.1 1200 (by omega) (by decide) (by omega)).1

/-- C8: a second submission to a channel that already holds an active task
replaces it — the stored start time and duration afterwards are those of
the second submission, the relay stays asserted, and no other channel's
task is affected (no per-channel queue). -/
theorem spec_C8_resubmit_replaces (s : DoserState) (c : Int) (d1 d2 t1 t2 : Nat) (idx : Fin 4)
    (hc1 : 1 ≤ c) (hc2 : c ≤ 4) (hidx : (idx : Nat) = (c - 1).toNat)
    (hd1 : 0 < d1) (hd2 : 0 < d2) :
    (schedulePump (schedulePump s c d1 t1) c d2 t2).pumps idx = ⟨true, t2, d2⟩ ∧
    (schedulePump (schedulePump s c d1 t1) c d2 t2).relays idx = true ∧
    (∀ j : Fin 4, j ≠ idx →
      (schedulePump (schedulePump s c d1 t1) c d2 t2).pumps j = s.pumps j) := by
  refine ⟨(schedulePump_valid_eq _ c d2 t2 idx hc1 hc2 (by omega) hidx).1,
          (schedulePump_valid_eq _ c d2 t2 idx hc1 hc2 (by omega) hidx).2, ?_⟩
  intro j hj
  have hcond1 : ¬(c < 1 ∨ 4 < c ∨ d1 = 0) := by omega
  have hcond2 : ¬(c < 1 ∨ 4 < c ∨ d2 = 0) := by omega
  have hjv : ¬((j : Nat) = (c - 1).toNat) := by
    rw [← hidx]
    exact fun h => hj (Fin.ext h)
  have hjv2 : ¬((j : Nat) = c.toNat - 1) := by omega
  simp [schedulePump, dif_neg hcond1, dif_neg hcond2, Function.update_apply, Fin.ext_iff,
    hjv, hjv2]

/-- Witness for C8: channel 3 submitted with 500 ms at t=10, then 700 ms at
t=2000; the stored task is that of the second submission. -/
theorem spec_C8_witness :
    (schedulePump (schedulePump initDoser 3 500 10) 3 700 2000).pumps 2 = ⟨true, 2000, 700⟩ :=
  (spec_C8_resubmit_replaces initDoser 3 500 700 10 2000 2 (by decide) (by decide) (by decide)
    (by decide) (by decide)).1

/-- C7 counterexample: a `/pump` request with channel 0 is silently dropped
but still answered HTTP 200 (no `ActuationError` reaches the caller), and a
request with the negative duration −1 is not rejected at all — the `int`
amount converts to the `uint32_t` 4294967295 and the pump is scheduled. -/
theorem spec_C7_counterexample :
    (handlePumpPOST initDoser (.body 0 100) 5).2 = 200 ∧
    (∀ i : Fin 4, (handlePumpPOST initDoser (.body 0 100) 5).1.pumps i = initDoser.pumps i) ∧
    ((handlePumpPOST initDoser (.body 1 (-1)) 5).1.pumps 0).active = true ∧
    ((handlePumpPOST initDoser (.body 1 (-1)) 5).1.pumps 0).durMs = 4294967295 := by
  decide

/-- C7 as amended: a `/pump` submission whose channel is outside 1..4 or
whose duration converts to the `uint32_t` value 0 never reaches the
scheduler and leaves the whole actuation state unchanged, but the handler
still replies HTTP 200 (the rejection is silent, no error is surfaced);
a submission with channel 1..4 and nonzero converted duration is scheduled
with that converted duration. -/
theorem spec_C7_silent_reject (s : DoserState) (p a : Int) (now : Nat) (idx : Fin 4) :
    (p < 1 ∨ 4 < p ∨ toU32 a = 0 → handlePumpPOST s (.body p a) now = (s, 200)) ∧
    (1 ≤ p → p ≤ 4 → toU32 a ≠ 0 → (idx : Nat) = (p - 1).toNat →
      (handlePumpPOST s (.body p a) now).1.pumps idx = ⟨true, now, toU32 a⟩ ∧
      (handlePumpPOST s (.body p a) now).2 = 200) := by
  constructor
  · intro h
    simp [handlePumpPOST, schedulePump, dif_pos h]
  · intro h1 h2 h3 hidx
    exact ⟨(schedulePump_valid_eq s p (toU32 a) now idx h1 h2 h3 hidx).1, rfl⟩

/-- Witness for C7 (amended): channel 0 is dropped silently with a 200
reply and no state change. -/
theorem spec_C7_witness :
    handlePumpPOST initDoser (.body 0 100) 7 = (initDoser, 200) :=
  (spec_C7_silent_reject initDoser 0 100 7 0).1 (by decide)

/-! ## Mode classifier -/

/-- Characterization of the mode after one `updateLDR` step: it flips to
night exactly on `dark >= 4` from day, flips to day exactly on `dark <= 1`
from night, and is otherwise unchanged. -/
theorem updateLDR_nightMode (s : LdrState) (r : Bool) :
    (updateLDR s r).nightMode =
      (if 4 ≤ countDark (s.ring.set s.idx r) ∧ s.nightMode = false then true
       else if countDark (s.ring.set s.idx r) ≤ 1 ∧ s.nightMode = true then false
       else s.nightMode) := by
  simp only [updateLDR]
  split_ifs <;> rfl

/-- C6: with ring size 5 and thresholds 4/4, the classifier switches from
day to night exactly when at least 4 of the 5 samples in the updated ring
are dark, and switches back to day exactly when at least 4 are light;
consequently a single outlier sample within a run of the opposite reading
(at most one dark sample while in day mode, at most one light sample while
in night mode) never flips the mode in either direction. -/
theorem spec_C6_debounced_mode (s : LdrState) (r : Bool) (hlen : s.ring.length = 5) :
    (s.nightMode = false →
      ((updateLDR s r).nightMode = true ↔ 4 ≤ countDark (s.ring.set s.idx r))) ∧
    (s.nightMode = true →
      ((updateLDR s r).nightMode = false ↔ 4 ≤ countLight (s.ring.set s.idx r))) ∧
    (s.nightMode = false → countDark (s.ring.set s.idx r) ≤ 1 →
      (updateLDR s r).nightMode = false) ∧
    (s.nightMode = true → countLight (s.ring.set s.idx r) ≤ 1 →
      (updateLDR s r).nightMode = true) := by
  have hpart := countDark_add_countLight (s.ring.set s.idx r)
  rw [List.length_set, hlen] at hpart
  refine ⟨?_, ?_, ?_, ?_⟩
  · intro hm
    rw [updateLDR_nightMode]
    simp only [hm]
    by_cases h4 : 4 ≤ countDark (s.ring.set s.idx r) <;> simp [h4]
  · intro hm
    rw [updateLDR_nightMode]
    simp only [hm]
    by_cases h1 : countDark (s.ring.set s.idx r) ≤ 1 <;> simp [h1] <;> omega
  · intro hm h1
    rw [updateLDR_nightMode]
    have h4 : ¬(4 ≤ countDark (s.ring.set s.idx r)) := by omega
    simp [hm, h4]
  · intro hm h1
    rw [updateLDR_nightMode]
    have h4 : ¬(countDark (s.ring.set s.idx r) ≤ 1) := by omega
    simp [hm, h4]

/-- Witness for C6: from day mode with a ring holding a single light sample,
writing a dark sample makes 5 of 5 dark and flips the classifier to night;
and a single light outlier inside a dark run while in night mode does not
flip it back. -/
theorem spec_C6_witness :
    (updateLDR ⟨[false, false, true, false, false], 2, false⟩ false).nightMode = true ∧
    (updateLDR ⟨[false, false, false, false, false], 2, true⟩ true).nightMode = true := by
  constructor
  · exact ((spec_C6_debounced_mode ⟨[false, false, true, false, false], 2, false⟩ false
      (by decide)).1 rfl).mpr (by decide)
  · exact (spec_C6_debounced_mode ⟨[false, false, false, false, false], 2, true⟩ true
      (by decide)).2.2.2 rfl (by decide)

/-! ## Device identity -/

/-- C9: once a nonempty device id has been persisted, the identity
initialization step of every subsequent boot returns the stored id
unchanged and performs no write — ids are generated only when the
persisted value is empty. -/
theorem spec_C9_device_id_immutable (stored chip mac : String) (h : stored ≠ "") :
    genDeviceId stored chip = (stored, false) ∧
    switchSetupDeviceId stored mac = (stored, false) := by
  simp [genDeviceId, switchSetupDeviceId, h]

/-- Witness for C9 at a concrete persisted id. -/
theorem spec_C9_witness :
    genDeviceId "valve-ab12" "c0ffee" = ("valve-ab12", false) ∧
    switchSetupDeviceId "valve-ab12" "a1b2c3" = ("valve-ab12", false) :=
  spec_C9_device_id_immutable "valve-ab12" "c0ffee" "a1b2c3" (by decide)

/-! ## Valve controller toggle -/

/-- C10: a `/toggle` with `valve_id` in 1..4 replies 200, inverts exactly
that valve's stored state (and rewrites only that valve's output pin),
leaving every other valve untouched; two consecutive toggles of the same
valve restore the original state of all valves; and a `valve_id` outside
1..4 replies 400 and changes nothing. -/
theorem spec_C10_toggle_involution (s : ValveCtl) (v : Int) (idx : Fin 4)
    (h1 : 1 ≤ v) (h2 : v ≤ 4) (hidx : (idx : Nat) = (v - 1).toNat) :
    (handleToggle s (.withId v)).2 = 200 ∧
    (handleToggle s (.withId v)).1.valveState idx = ! s.valveState idx ∧
    (∀ j : Fin 4, j ≠ idx →
      (handleToggle s (.withId v)).1.valveState j = s.valveState j ∧
      (handleToggle s (.withId v)).1.pins j = s.pins j) ∧
    (∀ j : Fin 4,
      (handleToggle (handleToggle s (.withId v)).1 (.withId v)).1.valveState j =
        s.valveState j) ∧
    (∀ w : Int, w < 1 ∨ 4 < w → handleToggle s (.withId w) = (s, 400)) := by
  have hcond : ¬(v < 1 ∨ 4 < v) := by omega
  refine ⟨by simp [handleToggle, dif_neg hcond], ?_, ?_, ?_, ?_⟩
  · simp only [handleToggle, dif_neg hcond, Function.update_apply, Fin.ext_iff]
    have : ((idx : Nat) = v.toNat - 1) := by omega
    simp [this]
    congr 1
    exact Fin.ext (show v.toNat - 1 = (idx : Nat) by omega)
  · intro j hj
    have hjv : ¬((j : Nat) = (v - 1).toNat) := by
      rw [← hidx]
      exact fun h => hj (Fin.ext h)
    have hjv2 : ¬((j : Nat) = v.toNat - 1) := by omega
    constructor <;>
      simp [handleToggle, dif_neg hcond, Function.update_apply, Fin.ext_iff, hjv, hjv2]
  · intro j
    by_cases hji : (j : Nat) = (v - 1).toNat
    · have hji2 : (j : Nat) = v.toNat - 1 := by omega
      simp [handleToggle, dif_neg hcond, Function.update_apply, Fin.ext_iff, hji, hji2]
    · have hji2 : ¬((j : Nat) = v.toNat - 1) := by omega
      simp [handleToggle, dif_neg hcond, Function.update_apply, Fin.ext_iff, hji, hji2]
  · intro w hw
    simp [handleToggle, dif_pos hw]

/-- Witness for C10: toggling valve 1 of an all-closed controller opens
exactly valve 1. -/
theorem spec_C10_witness :
    (handleToggle ⟨fun _ => false, fun _ => true⟩ (.withId 1)).1.valveState 0 = true := by
  have h := spec_C10_toggle_involution ⟨fun _ => false, fun _ => true⟩ 1 0
    (by decide) (by decide) (by decide)
  simpa using h.2.1

/-! ## Cloud session 401 handling -/

/-- C1 counterexample: on a 401 response, `sendFrame` and `pollCommands`
issue the original request exactly once — there is no retry of the
original call after the re-authentication (the claim requires the original
call to appear a second time), and the whole trace is just the original
call followed by the one authenticate call. -/
theorem spec_C1_counterexample :
    (sendFrame 401).1.count NetOp.postFrame = 1 ∧
    (sendFrame 401).2 = false ∧
    (pollCommands 401).count NetOp.getCommands = 1 ∧
    (sendFrame 401).1 = [NetOp.postFrame, NetOp.postAuth] ∧
    pollCommands 401 = [NetOp.getCommands, NetOp.postAuth] := by
  decide

/-- C1 as amended: a control-plane call receiving HTTP 401 performs exactly
one synchronous re-authentication and no retry of the original call — the
original request appears exactly once in the network trace, at most two
network calls happen in total, the call is reported failed to its caller,
and a non-401 response triggers no re-authentication. -/
theorem spec_C1_single_reauth_no_retry (code : Nat) :
    (sendFrame code).1.count NetOp.postFrame = 1 ∧
    (sendFrame code).1.count NetOp.postAuth = (if code = 401 then 1 else 0) ∧
    (sendFrame code).1.length ≤ 2 ∧
    (sendFrame code).2 = (decide (200 ≤ code) && decide (code < 300)) ∧
    (pollCommands code).count NetOp.getCommands = 1 ∧
    (pollCommands code).count NetOp.postAuth = (if code = 401 then 1 else 0) ∧
    (pollCommands code).length ≤ 2 := by
  by_cases h : code = 401 <;> simp [sendFrame, pollCommands, h]

/-! ## OTA update check and fetch -/

/-- C2: an update check reporting `update_available=false` never initiates
a download (in the smart switch and in the dosing unit); a failing download
(unreachable URL, short read) leaves the running firmware untouched; any
such failure is logged; and the `loop()` timer gate runs no further check
until the scheduled interval has elapsed. -/
theorem spec_C2_failed_update_cycle (c : CheckEnv) (d : DlEnv) (last now : Nat) (g b : Bool) :
    (c.update_available = false →
      (checkForUpdate c d).2 = false ∧ (checkForUpdate c d).1.beginSize = none) ∧
    (b = false → doserCheckForUpdate g b = false) ∧
    (d.httpCode ≠ 200 →
      (checkForUpdate c d).1.outcome ≠ .rebooted ∧
      otaPreservesFirmware (checkForUpdate c d).1.outcome = true) ∧
    (d.written ≠ d.contentLength.toNat →
      otaPreservesFirmware (checkForUpdate c d).1.outcome = true) ∧
    (c.httpCode = 200 → c.parseOk = true → c.update_available = true → c.hasUrl = true →
      d.httpCode ≠ 200 → otaLogsFailure (checkForUpdate c d).1.outcome = true) ∧
    (sub32 now last ≤ 3600000 → (loopUpdateGate last now).1 = false) := by
  refine ⟨?_, ?_, ?_, ?_, ?_, ?_⟩
  · intro h
    simp only [checkForUpdate]
    split_ifs <;> simp_all
  · intro h
    simp [doserCheckForUpdate, h]
  · intro h
    simp only [checkForUpdate, performUpdate]
    split_ifs <;> simp_all [otaPreservesFirmware]
  · intro h
    simp only [checkForUpdate, performUpdate]
    split_ifs <;> simp_all [otaPreservesFirmware]
  · intro h200 hparse hupd hurl hd
    simp only [checkForUpdate, performUpdate]
    split_ifs <;> simp_all [otaLogsFailure]
  · intro h
    have hlt : ¬(3600000 < sub32 now last) := by omega
    simp [loopUpdateGate, hlt]

/-- Witness for C2: a check reporting no update initiates no download, and
the dosing-unit check without `"update_available":true` downloads nothing. -/
theorem spec_C2_witness :
    (checkForUpdate ⟨200, true, false, true⟩ ⟨200, 10, true, 10, true⟩).2 = false ∧
    doserCheckForUpdate true false = false := by
  have h := spec_C2_failed_update_cycle ⟨200, true, false, true⟩ ⟨200, 10, true, 10, true⟩
    0 5 true false
  exact ⟨(h.1 rfl).1, h.2.1 rfl⟩

/-- C3 counterexample: when the server sends no `Content-Length`
(`http.getSize()` returns −1), `performUpdate` aborts with the
length-error path — no flash-write target is ever opened and the firmware
is left unchanged, contradicting the claim that the target is opened
unbounded and the update proceeds. -/
theorem spec_C3_counterexample :
    performUpdate ⟨200, -1, true, 0, true⟩ = ⟨.lengthError, none⟩ ∧
    otaPreservesFirmware (performUpdate ⟨200, -1, true, 0, true⟩).outcome = true := by
  decide

/-- C3 as amended: the firmware download is streamed into a flash-write
target sized to the declared `Content-Length` when the server supplies a
positive one; when `Content-Length` is absent or non-positive the fetch is
aborted with no flash-write target opened and the running firmware
unchanged; and the image is finalized (and the device rebooted) exactly
when the entire declared body has been written and the finalize succeeds. -/
theorem spec_C3_download_sized_to_length (e : DlEnv) :
    (e.httpCode = 200 → 0 < e.contentLength →
      (performUpdate e).beginSize = some e.contentLength) ∧
    (e.contentLength ≤ 0 →
      (performUpdate e).beginSize = none ∧ (performUpdate e).outcome ≠ .rebooted) ∧
    ((performUpdate e).outcome = .rebooted ↔
      e.httpCode = 200 ∧ 0 < e.contentLength ∧ e.beginOk = true ∧
      e.written = e.contentLength.toNat ∧ e.endOk = true) := by
  refine ⟨?_, ?_, ?_⟩
  · intro h200 hlen
    simp only [performUpdate]
    split_ifs <;> simp_all
    omega
  · intro hlen
    simp only [performUpdate]
    split_ifs <;> simp_all
  · simp only [performUpdate]
    split_ifs <;> simp_all

/-- Witness for C3 (amended): a 200 download of 4 declared bytes, 4 bytes
written and a clean finalize, opens the flash target at size 4 and ends in
the reboot path. -/
theorem spec_C3_witness :
    (performUpdate ⟨200, 4, true, 4, true⟩).beginSize = some 4 ∧
    (performUpdate ⟨200, 4, true, 4, true⟩).outcome = .rebooted := by
  have h := spec_C3_download_sized_to_length ⟨200, 4, true, 4, true⟩
  exact ⟨h.1 rfl (by decide), h.2.2.mpr (by decide)⟩

/-! ## Connectivity watchdog -/

/-- A disconnected loop pass whose recorded loss time `t1` is nonzero and
whose elapsed downtime is within the watchdog threshold changes nothing
and does not restart. -/
theorem watchdogStep_hold (s : WdState) (t t1 : Nat) (h0 : s.wifiLostSince = t1)
    (hne : t1 ≠ 0) (hth : sub32 t t1 ≤ WIFI_WATCHDOG_MS) :
    watchdogStep s false t = (s, false) := by
  have hnz : ¬(s.wifiLostSince = 0) := by rw [h0]; exact hne
  have hlt : ¬(WIFI_WATCHDOG_MS < sub32 t s.wifiLostSince) := by rw [h0]; omega
  simp [watchdogStep, hnz, hlt]

/-- Iterated disconnected loop passes within the watchdog threshold change
nothing and never restart. -/
theorem runWatchdogDown_hold (t1 : Nat) (hne : t1 ≠ 0) :
    ∀ ts : List Nat, (∀ t ∈ ts, sub32 t t1 ≤ WIFI_WATCHDOG_MS) →
    ∀ s : WdState, s.wifiLostSince = t1 → runWatchdogDown s ts = (s, false) := by
  intro ts
  induction ts with
  | nil => intro _ s _; rfl
  | cons t r ih =>
    intro hts s h0
    have hstep := watchdogStep_hold s t t1 h0 hne (hts t (List.mem_cons_self t r))
    have hrest := ih (fun t' ht' => hts t' (List.mem_cons_of_mem _ ht')) s h0
    simp [runWatchdogDown, hstep, hrest]

/-- C4: if the device was connected (a loop pass with the link up, which
zeroes `wifiLostSince`) and the upstream link then stays lost, the
watchdog does not fire while the downtime is within the two-minute
threshold, and at the first pass whose downtime exceeds it the runtime
clears every pump task, deasserts every relay and restarts; a pass with
the link up never fires the watchdog. -/
theorem spec_C4_watchdog_reboot (s0 s1 s2 s3 : WdState) (tc t1 T : Nat) (ts : List Nat)
    (h1 : 0 < t1)
    (hs1 : s1 = (watchdogStep s0 true tc).1)
    (hs2 : s2 = (watchdogStep s1 false t1).1)
    (hmid : ∀ t ∈ ts, sub32 t t1 ≤ WIFI_WATCHDOG_MS)
    (hs3 : s3 = (runWatchdogDown s2 ts).1)
    (hT : WIFI_WATCHDOG_MS < sub32 T t1) :
    (∀ (s : WdState) (now : Nat), (watchdogStep s true now).2 = false) ∧
    (watchdogStep s1 false t1).2 = false ∧
    (runWatchdogDown s2 ts).2 = false ∧
    (watchdogStep s3 false T).2 = true ∧
    (∀ i, ((watchdogStep s3 false T).1.doser.pumps i).active = false) ∧
    (∀ i, (watchdogStep s3 false T).1.doser.relays i = false) := by
  have hup : ∀ (s : WdState) (now : Nat), (watchdogStep s true now).2 = false := by
    intro s now
    simp [watchdogStep]
  have hs1w : s1.wifiLostSince = 0 := by
    rw [hs1]
    simp [watchdogStep]
  have hnofire1 : ¬(WIFI_WATCHDOG_MS < sub32 t1 t1) := by
    rw [sub32_self]
    omega
  have hs2w : s2.wifiLostSince = t1 := by
    rw [hs2]
    simp [watchdogStep, hs1w, hnofire1]
  have hrun := runWatchdogDown_hold t1 (by omega) ts hmid s2 hs2w
  have hs3w : s3.wifiLostSince = t1 := by
    rw [hs3, hrun]
    exact hs2w
  have hnz : ¬(s3.wifiLostSince = 0) := by
    rw [hs3w]
    omega
  have hfire : WIFI_WATCHDOG_MS < sub32 T s3.wifiLostSince := by
    rw [hs3w]
    exact hT
  refine ⟨hup, ?_, ?_, ?_, ?_, ?_⟩
  · simp [watchdogStep, hs1w, hnofire1]
  · rw [hrun]
  · simp [watchdogStep, hnz, hfire]
  · intro i
    simp [watchdogStep, hnz, hfire]
  · intro i
    simp [watchdogStep, hnz, hfire]

/-- Witness for C4: link up at t=1, lost from t=50, still lost at t=60000
(within the threshold, no restart), and at t=130000 the downtime exceeds
two minutes and the watchdog fires. -/
theorem spec_C4_witness :
    (watchdogStep
      (runWatchdogDown
        ((watchdogStep ((watchdogStep ⟨0, initDoser⟩ true 1).1) false 50).1) [60000]).1
      false 130000).2 = true := by
  have h := spec_C4_watchdog_reboot ⟨0, initDoser⟩ _ _ _ 1 50 130000 [60000]
    (by decide) rfl rfl (by decide) rfl (by decide)
  exact h.2.2.2.1

end Hydroleaf
